import Mathlib

/-!
Shallow embedding of the acosmibot-api Flask service (selected parts), with
theorems checking the natural-language specification against the code.

External I/O (Discord REST, Twitch/Kick APIs, the DAO layer backed by MySQL)
is represented by explicit environment records holding the responses the code
would receive, and by effect lists recording the calls the code issues.
Python truthiness on optional strings is modelled by `pyTruthy` and the
`x or y` idiom on strings by `pyOrStr`.
-/

namespace Acosmibot

/-- Python truthiness of an optional string: `None` and `""` are falsy. -/
def pyTruthy : Option String → Bool
  | none => false
  | some s => s ≠ ""

/-- Python `a or b` where `a` is an optional string and `b` a string:
yields the contents of `a` when truthy, else `b`. -/
def pyOrStr (a : Option String) (b : String) : String :=
  match a with
  | none => b
  | some s => if s = "" then b else s

/-- Python `a or b` on two optional strings: `a` when truthy, else `b`. -/
def pyOrOpt (a b : Option String) : Option String :=
  if pyTruthy a then a else b

/-- Python `s.startswith(pre)`, via the character lists of both strings. -/
def pyStartsWith (s pre : String) : Bool :=
  pre.toList.isPrefixOf s.toList

/-! ## Discord integration: `SimpleDiscordHTTPClient.check_admin`
(src/api/services/discord_integration.py, lines 110-175) -/

/-- A Discord role as returned by the `get_guild_roles` REST call:
its id and its permission integer (the JSON string already parsed). -/
structure Role where
  id : Nat
  permissions : Nat
deriving Repr, DecidableEq

/-- A Discord guild object as returned by `get_guild_info`: the fields
`check_admin` reads. -/
structure GuildInfo where
  name : String
  ownerId : Nat
deriving Repr, DecidableEq

/-- A Discord guild-member object: the `roles` field read by `check_admin`. -/
structure Member where
  roles : List Nat
deriving Repr, DecidableEq

/-- The REST calls `check_admin` may issue. -/
inductive ApiCall where
  | getGuildInfo
  | getGuildMember
  | getGuildRoles
deriving Repr, DecidableEq

/-- The responses the Discord REST API would return to `check_admin`:
`none` models a non-200 response or request error (the Python wrappers
return `None`, or `[]` for the role list, in that case). -/
structure DiscordEnv where
  guildInfo : Option GuildInfo
  member : Option Member
  guildRoles : List Role
deriving Repr

/-- Lines 150-157: fold over the guild roles, OR-ing the permission integer
of every role whose id is among the member's role ids into `combined_permissions`. -/
def roleCombinedPerms (guildRoles : List Role) (userRoleIds : List Nat) : Nat :=
  guildRoles.foldl
    (fun acc r => if userRoleIds.contains r.id then acc ||| r.permissions else acc) 0

/-- Lines 162-169: administrator bit `0x8` or manage-guild bit `0x20`. -/
def hasAdminBits (p : Nat) : Bool :=
  (p &&& 0x8 ≠ 0) || (p &&& 0x20 ≠ 0)

/-- Lines 119-123: use the cached guild info when provided, else the
`get_guild_info` response. -/
def resolveGuild (cachedGuild : Option GuildInfo) (env : DiscordEnv) : Option GuildInfo :=
  match cachedGuild with
  | none => env.guildInfo
  | some g => some g

/-- `check_admin(user_id, guild_id, guild_info)` (lines 110-175), returning the
boolean result together with the list of REST calls issued.  Fetch failures
return `False`; the guild owner is admitted before the member record or the
role list is fetched; otherwise admin status is the bit test on the OR of the
permissions of the roles the member holds (an empty fetched role list also
returns `False`). -/
def checkAdmin (userId : Nat) (cachedGuild : Option GuildInfo) (env : DiscordEnv) :
    Bool × List ApiCall :=
  let calls0 : List ApiCall :=
    match cachedGuild with
    | none => [ApiCall.getGuildInfo]
    | some _ => []
  match resolveGuild cachedGuild env with
  | none => (false, calls0)
  | some g =>
    if g.ownerId = userId then (true, calls0)
    else
      let calls1 := calls0 ++ [ApiCall.getGuildMember]
      match env.member with
      | none => (false, calls1)
      | some m =>
        let calls2 := calls1 ++ [ApiCall.getGuildRoles]
        if env.guildRoles.isEmpty then (false, calls2)
        else (hasAdminBits (roleCombinedPerms env.guildRoles m.roles), calls2)

/-- A concrete environment where user 1 owns the guild but holds no role:
used to separate the owner path from the role-permission computation. -/
def ownerNoRoleEnv : DiscordEnv :=
  { guildInfo := some { name := "g", ownerId := 1 }
  , member := some { roles := [] }
  , guildRoles := [{ id := 10, permissions := 0 }] }

/-! ## HTTP responses
JSON object bodies are modelled as association lists of string key/value
pairs (values rendered as strings); the Twitch challenge reply is raw text. -/

/-- A response body: a JSON object or a plain-text body. -/
inductive RespBody where
  | obj (kvs : List (String × String))
  | text (s : String)
deriving Repr, DecidableEq

/-- Whether a JSON object body carries the given key. -/
def RespBody.hasKey : RespBody → String → Bool
  | .obj kvs, k => kvs.any (fun kv => kv.1 = k)
  | .text _, _ => false

/-- An HTTP response: status code and body. -/
structure HttpResponse where
  status : Nat
  body : RespBody
deriving Repr, DecidableEq

/-! ## Auth middleware
`require_auth` (src/api/middleware/auth_decorators.py, lines 8-27) and
`require_admin` (src/api/middleware/admin_auth.py, lines 15-57). -/

/-- Outcome of `jwt.decode` on the presented token: a payload carrying
`user_id`, or one of the two caught error classes. -/
inductive JwtOutcome where
  | ok (userId : Nat)
  | expired
  | invalid
deriving Repr, DecidableEq

/-- Result of a decorated route: an early error response produced by the
decorator, or the wrapped handler's value (the handler runs only in the
second case). -/
inductive RouteResult (α : Type) where
  | early (status : Nat) (body : RespBody)
  | handled (a : α)
deriving Repr, DecidableEq

/-- The `require_auth` decorator: reject with 401 when the Authorization
header is missing or does not start with `Bearer `, else decode the token
(the second space-separated chunk) and on success run the handler with the
payload's `user_id`. -/
def requireAuth {α : Type} (decode : String → JwtOutcome) (handler : Nat → α)
    (authHeader : Option String) : RouteResult α :=
  match authHeader with
  | none => .early 401 (.obj [("error", "Missing authorization header")])
  | some h =>
    if pyStartsWith h "Bearer " then
      let token := (h.splitOn " ").getD 1 ""
      match decode token with
      | .ok uid => .handled (handler uid)
      | .expired => .early 401 (.obj [("error", "Token expired")])
      | .invalid => .early 401 (.obj [("error", "Invalid token")])
    else .early 401 (.obj [("error", "Missing authorization header")])

/-- A row of the AdminUsers table as returned by
`AdminUserDao.get_admin_by_discord_id`. -/
structure AdminInfo where
  discordUsername : String
  role : String
deriving Repr, DecidableEq

/-- The `require_admin` decorator: 401 when no `user_id` was attached to the
request by the auth middleware, 403 when the user has no AdminUsers row,
else run the handler (which sees the admin info on the request). -/
def requireAdmin {α : Type} (adminLookup : Nat → Option AdminInfo)
    (handler : Nat → AdminInfo → α) (userId : Option Nat) : RouteResult α :=
  match userId with
  | none => .early 401 (.obj
      [("error", "Authentication required"),
       ("message", "You must be logged in to access this resource")])
  | some uid =>
    match adminLookup uid with
    | none => .early 403 (.obj
        [("error", "Forbidden"),
         ("message", "You do not have permission to access this resource")])
    | some info => .handled (handler uid info)

/-! ## Route error handling
`get_user_guilds` (src/api/blueprints/guilds.py, lines 21-125) and
`get_current_user` (src/api/blueprints/auth.py, lines 48-130).
The try-body of each route (database and Discord API work) is abstracted as
an outcome value; the except arms are transcribed from the source. -/

/-- Outcome of a route's try-body: the success response it built, or an
exception (with `str(e)`) escaping to the broad except arm. -/
inductive BodyOutcome where
  | success (resp : HttpResponse)
  | exn (msg : String)
deriving Repr, DecidableEq

/-- The `get_user_guilds` route body (guilds.py lines 25-125): on an
exception the except arm returns `{"success": false, "message": str(e)}`
with status 500. -/
def getUserGuilds (outcome : BodyOutcome) : HttpResponse :=
  match outcome with
  | .success resp => resp
  | .exn m => { status := 500, body := .obj [("success", "false"), ("message", m)] }

/-- Outcome of the try-body of `get_current_user` (auth.py lines 57-130):
the success response built from the JWT payload and the Users row, or one of
the three except arms (`jwt.ExpiredSignatureError`, `jwt.InvalidTokenError`,
generic `Exception`). -/
inductive AuthMeOutcome where
  | success (resp : HttpResponse)
  | expired
  | invalid
  | exn (msg : String)
deriving Repr, DecidableEq

/-- The `get_current_user` route (auth.py lines 48-130): 401 with
`{"error": "Missing authorization header"}` when the header is absent or
not `Bearer `-prefixed; otherwise the try-body runs and its except arms
return `{"error": "Token expired"}` 401, `{"error": "Invalid token"}` 401,
or `{"error": str(e)}` 500. -/
def getCurrentUser (authHeader : Option String) (outcome : AuthMeOutcome) : HttpResponse :=
  match authHeader with
  | none => { status := 401, body := .obj [("error", "Missing authorization header")] }
  | some h =>
    if pyStartsWith h "Bearer " then
      match outcome with
      | .success resp => resp
      | .expired => { status := 401, body := .obj [("error", "Token expired")] }
      | .invalid => { status := 401, body := .obj [("error", "Invalid token")] }
      | .exn m => { status := 500, body := .obj [("error", m)] }
    else { status := 401, body := .obj [("error", "Missing authorization header")] }

/-! ## YouTube WebSub signature verification
`YouTubeWebSubService.verify_signature`
(src/api/services/youtube_websub_service.py, lines 73-101).
The HMAC-SHA1 primitive is a parameter `hmacSha1Hex secret payload`
standing for the lowercase hex digest `hmac.new(secret, payload,
sha1).hexdigest()`; payload bytes are a list of naturals. -/

/-- Python `s.split(sep, 1)` restricted to the two-element unpacking the
source performs: `none` models the `ValueError` raised when `sep` does not
occur (caught by the except arm). -/
def pySplitFirst (sep : Char) : List Char → Option (List Char × List Char)
  | [] => none
  | c :: cs =>
    if c = sep then some ([], cs)
    else
      match pySplitFirst sep cs with
      | none => none
      | some (a, b) => some (c :: a, b)

/-- `verify_signature(signature_header, payload)`: `False` when the secret is
unset (None or empty), when the header has no `=`, or when the tag before the
first `=` is not `sha1`; else compare the computed lowercase hex digest with
the remainder of the header. -/
def verifySignature (hmacSha1Hex : String → List Nat → String)
    (secret : Option String) (signatureHeader : String) (payload : List Nat) : Bool :=
  match secret with
  | none => false
  | some s =>
    if s = "" then false
    else
      match pySplitFirst '=' signatureHeader.toList with
      | none => false
      | some (alg, sig) =>
        if alg = "sha1".toList then
          decide ((hmacSha1Hex s payload).toList = sig)
        else false

/-! ## Kick webhook endpoint
`kick_webhook` (src/api/blueprints/kick_webhooks.py, lines 62-148) and
`verify_kick_signature` (lines 26-60).
The payload is represented by the values the handler extracts from the
parsed JSON: the `event_type`/`type` fallback chain and the broadcaster
fields, each precomputed per the `or`-chains of lines 116 and 126-128. -/

/-- The fields of a parsed Kick payload the endpoint reads, precomputed:
`eventTypeField` is `payload.get('event_type') or payload.get('type')`
(none when both are missing or falsy) and the broadcaster fields are the
results of the fallback chains over `broadcaster`/`channel`. -/
structure KickPayload where
  eventTypeField : Option String
  broadcasterUserId : String
  broadcasterUsername : String
  isLive : Bool
deriving Repr, DecidableEq

/-- Result of `request.get_json()` on the Kick webhook body: a raised parse
error, a falsy (empty) payload, or a parsed payload. -/
inductive KickParse where
  | parseError
  | emptyPayload
  | ok (p : KickPayload)

/-- The request as the Kick endpoint sees it: each header slot is the first
present header of its fallback pair, the raw body bytes, and the JSON parse
outcome. -/
structure KickRequest where
  messageId : Option String
  subscriptionId : Option String
  signature : Option String
  timestamp : Option String
  eventTypeHeader : Option String
  body : List Nat
  parse : KickParse

/-- Environment of the Kick endpoint: generated fallback id/timestamp
(lines 82-86), the configured webhook secret, the HMAC-SHA256 hex primitive
used by `verify_kick_signature`, and the `KickWebhookEventDao.event_exists`
lookup. -/
structure KickEnv where
  fallbackMessageId : String
  fallbackTimestamp : String
  webhookSecret : Option String
  hmacSha256Hex : String → List Nat → String
  eventExists : String → Bool

/-- Database writes and downstream processing the Kick endpoint triggers. -/
inductive KickEffect where
  | createEvent (eventId : String) (eventType : String) (subscriptionId : Option String)
      (broadcasterUserId : String) (broadcasterUsername : String) (payload : KickPayload)
  | processLivestream (payload : KickPayload) (eventId : String)
deriving Repr, DecidableEq

/-- `verify_kick_signature(message_id, timestamp, body, signature)`
(lines 26-60): true when no secret is configured, else an HMAC-SHA256 over
`id.timestamp.body` compared with the header value. The message bytes are
represented by the triple of inputs the digest is computed over. -/
def verifyKickSignature (hmacSha256Hex : String → List Nat → String)
    (webhookSecret : Option String)
    (messageId : String) (timestamp : String) (body : List Nat)
    (signature : String) : Bool :=
  match webhookSecret with
  | none => true
  | some secret =>
    if secret = "" then true
    else
      let message := (s!"{messageId}.{timestamp}.").toList.map Char.toNat ++ body
      signature = hmacSha256Hex secret message

/-- The message id the endpoint settles on (lines 82-83). -/
def kickResolvedMessageId (env : KickEnv) (req : KickRequest) : String :=
  pyOrStr req.messageId env.fallbackMessageId

/-- `kick_webhook` (lines 62-148): resolve header fallbacks, verify the
signature only to log the outcome, parse the payload (400 on failure or an
empty payload), resolve the event type, answer duplicates with 200 before
recording, else record the event and dispatch livestream events. Returns
the response and the effect list. -/
def kickWebhook (env : KickEnv) (req : KickRequest) : HttpResponse × List KickEffect :=
  let messageId := pyOrStr req.messageId env.fallbackMessageId
  match req.parse with
  | .parseError => ({ status := 400, body := .obj [("error", "Invalid JSON")] }, [])
  | .emptyPayload => ({ status := 400, body := .obj [("error", "Empty payload")] }, [])
  | .ok p =>
    let eventType := pyOrStr req.eventTypeHeader (pyOrStr p.eventTypeField "unknown")
    if env.eventExists messageId then
      ({ status := 200, body := .obj [("success", "true"), ("message", "Duplicate event")] }, [])
    else
      let recordEffect := KickEffect.createEvent messageId eventType req.subscriptionId
        p.broadcasterUserId p.broadcasterUsername p
      let dispatch :=
        if eventType ∈ ["livestream.status.updated", "stream.online", "stream.offline", "live"]
        then [KickEffect.processLivestream p messageId]
        else []
      ({ status := 200, body := .obj [("success", "true")] }, recordEffect :: dispatch)

/-! ## Twitch EventSub webhook endpoint
`twitch_eventsub_webhook` (src/api/blueprints/twitch_webhooks.py,
lines 34-140). -/

/-- The `event` object of a Twitch notification: the fields the endpoint
reads when recording the event. -/
structure TwitchEventData where
  broadcasterUserId : Option String
  broadcasterUserLogin : Option String
  broadcasterUserName : Option String
deriving Repr, DecidableEq

/-- A parsed Twitch payload: challenge, subscription type/id, event. -/
structure TwitchPayload where
  challenge : Option String
  subscriptionType : Option String
  subscriptionId : Option String
  event : TwitchEventData
deriving Repr, DecidableEq

/-- Result of `request.get_json()` on the Twitch webhook body. -/
inductive TwitchParse where
  | parseError
  | ok (p : TwitchPayload)

/-- The request as the Twitch endpoint sees it. -/
structure TwitchRequest where
  messageId : Option String
  messageTimestamp : Option String
  messageSignature : Option String
  messageType : Option String
  body : List Nat
  parse : TwitchParse

/-- Environment of the Twitch endpoint: the outcome of
`eventsub_service.verify_webhook_signature(sig, id, ts, body)` and the
`TwitchWebhookEventDao.event_exists` lookup. -/
structure TwitchEnv where
  sigValid : String → String → String → List Nat → Bool
  eventExists : String → Bool

/-- Database writes and downstream processing the Twitch endpoint triggers. -/
inductive TwitchEffect where
  | createEvent (eventId : String) (eventType : Option String) (subscriptionId : Option String)
      (broadcasterUserId : Option String) (broadcasterUsername : Option String)
  | processOnline (event : TwitchEventData) (eventId : String)
  | processOffline (event : TwitchEventData) (eventId : String)
deriving Repr, DecidableEq

/-- `twitch_eventsub_webhook` (lines 34-140): 400 when any of the four
EventSub headers is missing or empty, 403 on signature failure, then
dispatch on the message type: challenge echo for verification requests,
duplicate-guarded record-and-process for notifications (200), 200 for
revocations, 400 otherwise. -/
def twitchEventsubWebhook (env : TwitchEnv) (req : TwitchRequest) :
    HttpResponse × List TwitchEffect :=
  if ¬ (pyTruthy req.messageId ∧ pyTruthy req.messageTimestamp ∧
        pyTruthy req.messageSignature ∧ pyTruthy req.messageType) then
    ({ status := 400, body := .obj [("error", "Missing headers")] }, [])
  else
    let messageId := req.messageId.getD ""
    let timestamp := req.messageTimestamp.getD ""
    let signature := req.messageSignature.getD ""
    let messageType := req.messageType.getD ""
    if ¬ env.sigValid signature messageId timestamp req.body then
      ({ status := 403, body := .obj [("error", "Invalid signature")] }, [])
    else
      match req.parse with
      | .parseError => ({ status := 400, body := .obj [("error", "Invalid JSON")] }, [])
      | .ok p =>
        if messageType = "webhook_callback_verification" then
          match p.challenge with
          | none => ({ status := 400, body := .obj [("error", "Missing challenge")] }, [])
          | some c =>
            if c = "" then ({ status := 400, body := .obj [("error", "Missing challenge")] }, [])
            else ({ status := 200, body := .text c }, [])
        else if messageType = "notification" then
          if env.eventExists messageId then
            ({ status := 200,
               body := .obj [("success", "true"), ("message", "Duplicate event")] }, [])
          else
            let busername := pyOrOpt p.event.broadcasterUserLogin p.event.broadcasterUserName
            let recordEffect := TwitchEffect.createEvent messageId p.subscriptionType
              p.subscriptionId p.event.broadcasterUserId busername
            let dispatch :=
              if p.subscriptionType = some "stream.online" then
                [TwitchEffect.processOnline p.event messageId]
              else if p.subscriptionType = some "stream.offline" then
                [TwitchEffect.processOffline p.event messageId]
              else []
            ({ status := 200, body := .obj [("success", "true")] }, recordEffect :: dispatch)
        else if messageType = "revocation" then
          ({ status := 200, body := .obj [("success", "true")] }, [])
        else
          ({ status := 400, body := .obj [("error", "Unknown message type")] }, [])

/-! ## Kick stream-online handling
`handle_stream_online` (src/api/blueprints/kick_webhooks.py, lines 183-380).
The per-guild loop threads the KickAnnouncements table state, modelled as a
list of (guild id, streamer username) pairs of currently active
announcements; embed construction (lines 287-340) has no effect on control
flow and is not represented. -/

/-- The `kick` section of a guild's settings as the loop reads it:
whether Kick announcements are enabled, whether the broadcaster appears in
`tracked_streamers` (case-insensitive username match), and the announcement
channel id. -/
structure GuildKickSettings where
  enabled : Bool
  hasStreamerConfig : Bool
  announcementChannelId : Option Nat
deriving Repr, DecidableEq

/-- Environment for the per-guild loop: guild settings lookup and whether
`http_client.post_message` returns a message for the guild's channel. -/
structure KickAnnEnv where
  settings : Nat → Option GuildKickSettings
  postSucceeds : Nat → Bool

/-- Discord and database writes the stream-online handler performs. -/
inductive KickAnnEffect where
  | postMessage (guildId : Nat) (channelId : Nat)
  | createAnnouncement (guildId : Nat) (streamer : String)
  | markProcessed (eventId : String)
deriving Repr, DecidableEq

/-- One iteration of the guild loop (lines 249-372): skip when settings are
missing, Kick is disabled, the streamer is not configured, an active
announcement already exists, or no announcement channel is configured; else
post to Discord and create the announcement row only when the post
succeeded.  Returns the updated active-announcement state and the effects. -/
def kickProcessGuild (env : KickAnnEnv) (streamer : String)
    (st : List (Nat × String)) (gid : Nat) : List (Nat × String) × List KickAnnEffect :=
  match env.settings gid with
  | none => (st, [])
  | some s =>
    if ¬ s.enabled then (st, [])
    else if ¬ s.hasStreamerConfig then (st, [])
    else if (gid, streamer) ∈ st then (st, [])
    else
      match s.announcementChannelId with
      | none => (st, [])
      | some ch =>
        if ch = 0 then (st, [])
        else if env.postSucceeds gid then
          ((gid, streamer) :: st,
           [KickAnnEffect.postMessage gid ch, KickAnnEffect.createAnnouncement gid streamer])
        else (st, [KickAnnEffect.postMessage gid ch])

/-- The guild loop over `tracked_guild_ids`, threading the announcement
state and concatenating effects in order. -/
def kickRunGuilds (env : KickAnnEnv) (streamer : String) :
    List (Nat × String) → List Nat → List (Nat × String) × List KickAnnEffect
  | st, [] => (st, [])
  | st, g :: gs =>
    let r := kickProcessGuild env streamer st g
    let rest := kickRunGuilds env streamer r.1 gs
    (rest.1, r.2 ++ rest.2)

/-- The KickSubscriptions row for a broadcaster: reference count and the
guilds tracking them. -/
structure KickSubRecord where
  guildCount : Nat
  trackedGuildIds : List Nat
deriving Repr, DecidableEq

/-- `handle_stream_online` (lines 183-380): bail out when no subscription
record exists or its guild count is 0, else run the guild loop and mark the
webhook event processed. -/
def kickHandleStreamOnline (env : KickAnnEnv) (subscriptionRecord : Option KickSubRecord)
    (streamer : String) (st : List (Nat × String)) (eventId : String) :
    List (Nat × String) × List KickAnnEffect :=
  match subscriptionRecord with
  | none => (st, [])
  | some record =>
    if record.guildCount = 0 then (st, [])
    else
      let r := kickRunGuilds env streamer st record.trackedGuildIds
      (r.1, r.2 ++ [KickAnnEffect.markProcessed eventId])

/-! ## Twitch EventSub subscription manager
`TwitchSubscriptionManager.subscribe_to_streamer` (lines 32-100) and
`unsubscribe_from_streamer` (lines 102-171) of
src/api/services/twitch_subscription_manager.py. -/

/-- A TwitchEventSub row: the stored upstream subscription ids. -/
structure TwitchSubRecord where
  onlineSubscriptionId : Option String
  offlineSubscriptionId : Option String
deriving Repr, DecidableEq

/-- Environment of the subscription manager: the Twitch `get_user_info`
response (broadcaster id and login), the existing-subscription lookup, the
remaining reference count `remove_guild_from_subscription` reports after a
removal, and the subscription ids the two EventSub create calls return. -/
structure TwitchSubEnv where
  userInfo : Option (String × String)
  existing : String → Option TwitchSubRecord
  removeRemaining : String → Nat → Nat
  createOnlineId : Option String
  createOfflineId : Option String

/-- Upstream and database operations the subscription manager performs. -/
inductive SubEffect where
  | addGuildToSubscription (broadcasterUserId : String) (guildId : Nat)
  | createOnlineSub (broadcasterUserId : String)
  | createOfflineSub (broadcasterUserId : String)
  | createDbSubscription (broadcasterUserId : String) (broadcasterUsername : String)
      (guildId : Nat) (onlineId : String) (offlineId : String)
  | removeGuildFromSubscription (broadcasterUserId : String) (guildId : Nat)
  | deleteUpstreamSub (subId : String)
  | deleteDbSubscription (broadcasterUserId : String)
deriving Repr, DecidableEq

/-- `subscribe_to_streamer(username, guild_id)` (lines 32-100): user lookup
failure fails; an existing record only gets the guild added (reference
increment); otherwise both EventSub creations are attempted and, only when
both returned truthy ids, a database record is created. -/
def subscribeToStreamer (env : TwitchSubEnv) (username : String) (guildId : Nat) :
    (Bool × String) × List SubEffect :=
  match env.userInfo with
  | none => ((false, s!"Twitch user {username} not found"), [])
  | some (buid, blogin) =>
    match env.existing buid with
    | some _ =>
      ((true, s!"Subscription added for {blogin}"),
       [SubEffect.addGuildToSubscription buid guildId])
    | none =>
      let attempts := [SubEffect.createOnlineSub buid, SubEffect.createOfflineSub buid]
      if pyTruthy env.createOnlineId ∧ pyTruthy env.createOfflineId then
        let onId := env.createOnlineId.getD ""
        let offId := env.createOfflineId.getD ""
        ((true, s!"EventSub subscription created for {blogin}"),
         attempts ++ [SubEffect.createDbSubscription buid blogin guildId onId offId])
      else
        ((false, s!"Failed to create EventSub subscriptions for {blogin}"), attempts)

/-- `unsubscribe_from_streamer(username, guild_id)` (lines 102-171): user or
record lookup failure succeeds vacuously; else the guild is removed from
the record (reference decrement) and, exactly when the remaining count is
0, each stored truthy upstream subscription id is deleted and the database
record is deleted. -/
def unsubscribeFromStreamer (env : TwitchSubEnv) (username : String) (guildId : Nat) :
    (Bool × String) × List SubEffect :=
  match env.userInfo with
  | none => ((true, s!"User {username} not found, skipping"), [])
  | some (buid, blogin) =>
    match env.existing buid with
    | none => ((true, s!"No subscription found for {blogin}"), [])
    | some record =>
      let remaining := env.removeRemaining buid guildId
      let decEffect := [SubEffect.removeGuildFromSubscription buid guildId]
      if remaining = 0 then
        let delOnline :=
          if pyTruthy record.onlineSubscriptionId then
            [SubEffect.deleteUpstreamSub (record.onlineSubscriptionId.getD "")]
          else []
        let delOffline :=
          if pyTruthy record.offlineSubscriptionId then
            [SubEffect.deleteUpstreamSub (record.offlineSubscriptionId.getD "")]
          else []
        ((true, s!"Fully unsubscribed from {blogin}"),
         decEffect ++ delOnline ++ delOffline ++ [SubEffect.deleteDbSubscription buid])
      else
        ((true, s!"Removed from guild, {remaining} guilds still tracking {blogin}"),
         decEffect)

/-! ## Theorems -/

/-- Claim C9: when the requesting user is the guild owner, `check_admin`
returns True immediately, issuing neither the member fetch nor the role
fetch (and hence computing no permission bits); so an owner is reported as
admin regardless of the roles they hold. -/
theorem checkAdmin_owner_shortcut (uid : Nat) (cg : Option GuildInfo) (env : DiscordEnv)
    (g : GuildInfo) (hg : resolveGuild cg env = some g) (hown : g.ownerId = uid) :
    (checkAdmin uid cg env).1 = true ∧
    ApiCall.getGuildMember ∉ (checkAdmin uid cg env).2 ∧
    ApiCall.getGuildRoles ∉ (checkAdmin uid cg env).2 := by
  unfold checkAdmin
  rw [hg]
  cases cg <;> simp [hown]

/-- Witness for C9: user 1 owns the guild in `ownerNoRoleEnv` and holds no
role with any permission bit, yet is reported as admin with no member or
role fetch. -/
theorem checkAdmin_owner_shortcut_witness :
    (checkAdmin 1 none ownerNoRoleEnv).1 = true ∧
    ApiCall.getGuildMember ∉ (checkAdmin 1 none ownerNoRoleEnv).2 ∧
    ApiCall.getGuildRoles ∉ (checkAdmin 1 none ownerNoRoleEnv).2 :=
  checkAdmin_owner_shortcut 1 none ownerNoRoleEnv { name := "g", ownerId := 1 } rfl rfl

/-- Counterexample to claim C1 as stated: in `ownerNoRoleEnv` user 1 holds
no role, so the bitwise OR over their roles is 0 and has neither the 0x8
nor the 0x20 bit, yet `check_admin` reports True (owner shortcut); so
`check_admin` does not report admin exactly when the combined role
permissions have an admin bit. -/
theorem checkAdmin_bits_counterexample :
    (checkAdmin 1 none ownerNoRoleEnv).1 ≠
      hasAdminBits (roleCombinedPerms ownerNoRoleEnv.guildRoles
        ((ownerNoRoleEnv.member.map Member.roles).getD [])) := by
  decide

/-- Claim C1 (amended): for a non-owner whose member record is found and
whose guild role list is fetched non-empty, `check_admin` reports admin
exactly when the bitwise OR of the permission integers of the roles the
member holds has the administrator bit 0x8 or the manage-guild bit 0x20. -/
theorem checkAdmin_role_bits (uid : Nat) (cg : Option GuildInfo) (env : DiscordEnv)
    (g : GuildInfo) (m : Member)
    (hg : resolveGuild cg env = some g) (hown : g.ownerId ≠ uid)
    (hm : env.member = some m) (hr : env.guildRoles ≠ []) :
    (checkAdmin uid cg env).1 = hasAdminBits (roleCombinedPerms env.guildRoles m.roles) := by
  unfold checkAdmin
  rw [hg, hm]
  cases cg <;> simp [hown, hr]

/-- Witness for the amended C1: user 2 is not the owner of the guild in
`ownerNoRoleEnv`, holds no role, and is reported non-admin, matching the
bit test on the combined permissions. -/
theorem checkAdmin_role_bits_witness :
    (checkAdmin 2 none ownerNoRoleEnv).1 =
      hasAdminBits (roleCombinedPerms ownerNoRoleEnv.guildRoles []) :=
  checkAdmin_role_bits 2 none ownerNoRoleEnv { name := "g", ownerId := 1 }
    { roles := [] } rfl (by decide) rfl (by decide)

/-- Claim C6: a JWT-protected route answers 401 when the Authorization
header is absent or not `Bearer `-prefixed, with a response independent of
the wrapped handler (so the handler never runs); and an admin route
answers 403 for an authenticated user with no AdminUsers row, again
independently of the handler. -/
theorem auth_gates :
    (∀ (decode : String → JwtOutcome) (ah : Option String),
      (ah = none ∨ ∃ s, ah = some s ∧ pyStartsWith s "Bearer " = false) →
      ∃ b, ∀ (α : Type) (handler : Nat → α),
        requireAuth decode handler ah = .early 401 b) ∧
    (∀ (adminLookup : Nat → Option AdminInfo) (uid : Nat),
      adminLookup uid = none →
      ∃ b, ∀ (α : Type) (handler : Nat → AdminInfo → α),
        requireAdmin adminLookup handler (some uid) = .early 403 b) := by
  constructor
  · intro decode ah hbad
    rcases hbad with rfl | ⟨s, rfl, hs⟩
    · exact ⟨.obj [("error", "Missing authorization header")], fun α handler => rfl⟩
    · refine ⟨.obj [("error", "Missing authorization header")], fun α handler => ?_⟩
      simp [requireAuth, hs]
  · intro adminLookup uid hnone
    refine ⟨.obj [("error", "Forbidden"),
       ("message", "You do not have permission to access this resource")],
      fun α handler => ?_⟩
    simp [requireAdmin, hnone]

/-- Witness for C6: the header `Token x` is not `Bearer `-prefixed, so
`require_auth` answers 401 without running the handler; user 5 has no
AdminUsers row under the empty lookup, so `require_admin` answers 403. -/
theorem auth_gates_witness :
    (∃ b, ∀ (α : Type) (handler : Nat → α),
      requireAuth (fun _ => JwtOutcome.invalid) handler (some "Token x") = .early 401 b) ∧
    (∃ b, ∀ (α : Type) (handler : Nat → AdminInfo → α),
      requireAdmin (fun _ => none) handler (some 5) = .early 403 b) :=
  ⟨auth_gates.1 (fun _ => JwtOutcome.invalid) (some "Token x")
      (Or.inr ⟨"Token x", rfl, by decide⟩),
   auth_gates.2 (fun _ => none) 5 rfl⟩

/-- Counterexample to claim C5 as stated: when the try-body of
`get_current_user` raises, the except arm returns `{"error": str(e)}` with
500 — a body with neither a `success` nor a `message` key — and an expired
token yields status 401, which is outside the claimed 400/403/404/500 set. -/
theorem route_error_shape_counterexample :
    ((getCurrentUser (some "Bearer t") (.exn "boom")).body.hasKey "success" = false ∧
     (getCurrentUser (some "Bearer t") (.exn "boom")).body.hasKey "message" = false) ∧
    (getCurrentUser (some "Bearer t") AuthMeOutcome.expired).status = 401 := by
  constructor
  · constructor <;> rfl
  · rfl

/-- Claim C5 (amended): routes wrap their bodies in a broad try/except and
an exception yields a JSON error response rather than an unhandled
exception, but the shape and status vary by route: `get_user_guilds`
returns `{"success": false, "message": str(e)}` with 500, while
`get_current_user` returns `{"error": ...}` with 401 for expired or
invalid tokens and `{"error": str(e)}` with 500 for other exceptions. -/
theorem route_error_shapes :
    (∀ m, getUserGuilds (.exn m) =
      { status := 500, body := .obj [("success", "false"), ("message", m)] }) ∧
    (∀ ah m, (∃ h, ah = some h ∧ pyStartsWith h "Bearer " = true) →
      getCurrentUser ah (.exn m) = { status := 500, body := .obj [("error", m)] }) ∧
    (∀ ah, (∃ h, ah = some h ∧ pyStartsWith h "Bearer " = true) →
      (getCurrentUser ah AuthMeOutcome.expired).status = 401 ∧
      (getCurrentUser ah AuthMeOutcome.invalid).status = 401) := by
  refine ⟨fun m => rfl, ?_, ?_⟩
  · rintro ah m ⟨h, rfl, hb⟩
    simp [getCurrentUser, hb]
  · rintro ah ⟨h, rfl, hb⟩
    constructor <;> simp [getCurrentUser, hb]

/-- Witness for the amended C5 at concrete inputs. -/
theorem route_error_shapes_witness :
    getUserGuilds (.exn "db down") =
      { status := 500, body := .obj [("success", "false"), ("message", "db down")] } ∧
    getCurrentUser (some "Bearer t") (.exn "boom") =
      { status := 500, body := .obj [("error", "boom")] } ∧
    (getCurrentUser (some "Bearer t") AuthMeOutcome.expired).status = 401 :=
  ⟨route_error_shapes.1 "db down",
   route_error_shapes.2.1 (some "Bearer t") "boom" ⟨"Bearer t", rfl, by decide⟩,
   (route_error_shapes.2.2 (some "Bearer t") ⟨"Bearer t", rfl, by decide⟩).1⟩

/-- Splitting yields a decomposition of the input at the first separator. -/
theorem pySplitFirst_eq_some {sep : Char} {l a b : List Char}
    (h : pySplitFirst sep l = some (a, b)) : l = a ++ sep :: b := by
  induction l generalizing a b with
  | nil => simp [pySplitFirst] at h
  | cons c cs ih =>
    by_cases hc : c = sep
    · subst hc
      simp [pySplitFirst] at h
      obtain ⟨rfl, rfl⟩ := h
      simp
    · rw [pySplitFirst, if_neg hc] at h
      cases hrec : pySplitFirst sep cs with
      | none => rw [hrec] at h; simp at h
      | some ab =>
        obtain ⟨a2, b2⟩ := ab
        rw [hrec] at h
        simp at h
        obtain ⟨rfl, rfl⟩ := h
        simp [ih hrec]

/-- Splitting a header that is `sha1=` followed by anything. -/
theorem pySplitFirst_sha1_prefix (d : List Char) :
    pySplitFirst '=' ("sha1=".toList ++ d) = some ("sha1".toList, d) := rfl

/-- Unfolding of `verifySignature` at a present secret. -/
theorem verifySignature_some (h : String → List Nat → String) (s : String)
    (hdr : String) (payload : List Nat) :
    verifySignature h (some s) hdr payload =
      (if s = "" then false
       else
         match pySplitFirst '=' hdr.toList with
         | none => false
         | some (alg, sig) =>
           if alg = "sha1".toList then decide ((h s payload).toList = sig) else false) := rfl

/-- Claim C7: `verify_signature` accepts exactly the headers of the form
`sha1=` followed by the hex HMAC-SHA1 digest of the payload under the
configured secret (the digest primitive is the parameter `h`); in
particular it rejects when the secret is unset or empty, when the tag
before the first `=` is not `sha1`, and when the digests differ. -/
theorem verifySignature_iff (h : String → List Nat → String) (secret : Option String)
    (hdr : String) (payload : List Nat) :
    verifySignature h secret hdr payload = true ↔
      ∃ s, secret = some s ∧ s ≠ "" ∧ hdr = "sha1=" ++ h s payload := by
  constructor
  · intro hv
    cases secret with
    | none => simp [verifySignature] at hv
    | some s =>
      rw [verifySignature_some] at hv
      by_cases hs : s = ""
      · rw [if_pos hs] at hv; exact absurd hv (by simp)
      · rw [if_neg hs] at hv
        cases hsp : pySplitFirst '=' hdr.toList with
        | none => rw [hsp] at hv; simp at hv
        | some ab =>
          obtain ⟨alg, sig⟩ := ab
          rw [hsp] at hv
          have hv2 : (if alg = "sha1".toList then
              decide ((h s payload).toList = sig) else false) = true := hv
          by_cases halg : alg = "sha1".toList
          · rw [if_pos halg] at hv2
            simp at hv2
            refine ⟨s, rfl, hs, ?_⟩
            have hl := pySplitFirst_eq_some hsp
            apply String.ext
            show hdr.data = ("sha1=" ++ h s payload).data
            rw [String.data_append]
            have hdl : hdr.toList = hdr.data := rfl
            rw [hdl] at hl
            rw [hl, halg, ← hv2]
            rfl
          · rw [if_neg halg] at hv2
            simp at hv2
  · rintro ⟨s, rfl, hs, rfl⟩
    rw [verifySignature_some, if_neg hs]
    have hsplit : ("sha1=" ++ h s payload).toList = "sha1=".toList ++ (h s payload).toList := by
      show ("sha1=" ++ h s payload).data = _
      rw [String.data_append]; rfl
    rw [hsplit, pySplitFirst_sha1_prefix]
    show (if "sha1".toList = "sha1".toList then
        decide ((h s payload).toList = (h s payload).toList) else false) = true
    simp

/-- Witness for C7: a well-formed header is accepted under a set secret. -/
theorem verifySignature_iff_witness :
    verifySignature (fun _ _ => "0abc") (some "sec") "sha1=0abc" [1, 2] = true :=
  (verifySignature_iff (fun _ _ => "0abc") (some "sec") "sha1=0abc" [1, 2]).mpr
    ⟨"sec", rfl, by decide, rfl⟩

/-- Claim C3: the Kick webhook endpoint never rejects a request because of
its signature: its response and its effects are identical for any two
values of the Kick-Event-Signature header (in particular for one that
fails `verify_kick_signature` and one that passes), so a failed check can
only be logged and the event is parsed, recorded, and processed as if the
signature had verified. -/
theorem kickWebhook_ignores_signature (env : KickEnv) (req : KickRequest)
    (s₁ s₂ : Option String) :
    kickWebhook env { req with signature := s₁ } =
    kickWebhook env { req with signature := s₂ } := by
  cases req
  rfl

/-- Claim C2: a Twitch notification (headers present, signature valid) or a
Kick webhook whose message id already has a row in the corresponding
webhook-event table is answered with 200 and a success body, with no event
row created and no downstream processing (no Discord message posted or
edited). -/
theorem webhook_duplicate_guard :
    (∀ (env : TwitchEnv) (req : TwitchRequest) (p : TwitchPayload),
      pyTruthy req.messageId = true →
      pyTruthy req.messageTimestamp = true →
      pyTruthy req.messageSignature = true →
      req.messageType = some "notification" →
      env.sigValid (req.messageSignature.getD "") (req.messageId.getD "")
        (req.messageTimestamp.getD "") req.body = true →
      req.parse = TwitchParse.ok p →
      env.eventExists (req.messageId.getD "") = true →
      twitchEventsubWebhook env req =
        ({ status := 200,
           body := .obj [("success", "true"), ("message", "Duplicate event")] }, [])) ∧
    (∀ (env : KickEnv) (req : KickRequest) (p : KickPayload),
      req.parse = KickParse.ok p →
      env.eventExists (kickResolvedMessageId env req) = true →
      kickWebhook env req =
        ({ status := 200,
           body := .obj [("success", "true"), ("message", "Duplicate event")] }, [])) := by
  constructor
  · intro env req p hid hts hsg hty hsig hparse hdup
    obtain ⟨mi, mt, ms, mty, bd, pr⟩ := req
    simp only at hid hts hsg hty hsig hparse hdup
    subst hty hparse
    have hnt : pyTruthy (some "notification") = true := rfl
    simp only [twitchEventsubWebhook, hid, hts, hsg, hnt]
    simp [hsig, hdup]
  · intro env req p hparse hdup
    obtain ⟨mi, si, sg, ts, et, bd, pr⟩ := req
    simp only at hparse
    subst hparse
    simp only [kickWebhook, kickResolvedMessageId] at *
    simp [hdup]

/-- Witness for C2: concrete duplicate deliveries on both endpoints. -/
theorem webhook_duplicate_guard_witness :
    twitchEventsubWebhook
        { sigValid := fun _ _ _ _ => true, eventExists := fun _ => true }
        { messageId := some "m1", messageTimestamp := some "t1",
          messageSignature := some "sg", messageType := some "notification",
          body := [], parse := TwitchParse.ok
            { challenge := none, subscriptionType := some "stream.online",
              subscriptionId := some "sub", event :=
                { broadcasterUserId := some "b", broadcasterUserLogin := some "l",
                  broadcasterUserName := some "n" } } } =
      ({ status := 200,
         body := .obj [("success", "true"), ("message", "Duplicate event")] }, []) ∧
    kickWebhook
        { fallbackMessageId := "fb", fallbackTimestamp := "ft",
          webhookSecret := none, hmacSha256Hex := fun _ _ => "",
          eventExists := fun _ => true }
        { messageId := some "m2", subscriptionId := none, signature := none,
          timestamp := none, eventTypeHeader := none, body := [],
          parse := KickParse.ok
            { eventTypeField := some "live", broadcasterUserId := "b",
              broadcasterUsername := "u", isLive := true } } =
      ({ status := 200,
         body := .obj [("success", "true"), ("message", "Duplicate event")] }, []) :=
  ⟨webhook_duplicate_guard.1 _ _ _ rfl rfl rfl rfl rfl rfl rfl,
   webhook_duplicate_guard.2 _ _ _ rfl rfl⟩

/-- Claim C10: when no subscription record exists and either EventSub
creation yields no (truthy) subscription id, `subscribe_to_streamer`
returns failure and creates no database subscription record. -/
theorem subscribe_atomic_on_failure (env : TwitchSubEnv) (username : String)
    (guildId : Nat) (buid blogin : String)
    (hu : env.userInfo = some (buid, blogin)) (he : env.existing buid = none)
    (hfail : pyTruthy env.createOnlineId = false ∨ pyTruthy env.createOfflineId = false) :
    (subscribeToStreamer env username guildId).1.1 = false ∧
    ∀ b bl g o f, SubEffect.createDbSubscription b bl g o f ∉
      (subscribeToStreamer env username guildId).2 := by
  have hcond : ¬ (pyTruthy env.createOnlineId = true ∧ pyTruthy env.createOfflineId = true) := by
    rcases hfail with hf | hf <;> simp [hf]
  simp [subscribeToStreamer, hu, he, hcond]

/-- Witness for C10: the offline creation returns no id, so the call fails
and no database record effect is emitted. -/
theorem subscribe_atomic_on_failure_witness :
    (subscribeToStreamer
        { userInfo := some ("b1", "l1"), existing := fun _ => none,
          removeRemaining := fun _ _ => 0, createOnlineId := some "on1",
          createOfflineId := none }
        "streamer" 7).1.1 = false ∧
    ∀ b bl g o f, SubEffect.createDbSubscription b bl g o f ∉
      (subscribeToStreamer
        { userInfo := some ("b1", "l1"), existing := fun _ => none,
          removeRemaining := fun _ _ => 0, createOnlineId := some "on1",
          createOfflineId := none }
        "streamer" 7).2 :=
  subscribe_atomic_on_failure _ "streamer" 7 "b1" "l1" rfl rfl (Or.inr rfl)

/-- Claim C4: unsubscribing always removes the guild from the record
(reference decrement); exactly when the remaining count reaches 0 the
stored upstream EventSub subscription ids (online and offline) are deleted
and the database record is deleted, and when guilds remain no deletion of
any kind happens; conversely, subscribing when a record already exists
emits exactly the add-guild increment — no upstream creation and no new
database record. -/
theorem subscription_reference_counting :
    (∀ (env : TwitchSubEnv) (u : String) (gid : Nat) (buid blogin : String)
       (record : TwitchSubRecord),
      env.userInfo = some (buid, blogin) →
      env.existing buid = some record →
      SubEffect.removeGuildFromSubscription buid gid ∈
        (unsubscribeFromStreamer env u gid).2 ∧
      (env.removeRemaining buid gid = 0 →
        (∀ sid, record.onlineSubscriptionId = some sid → sid ≠ "" →
          SubEffect.deleteUpstreamSub sid ∈ (unsubscribeFromStreamer env u gid).2) ∧
        (∀ sid, record.offlineSubscriptionId = some sid → sid ≠ "" →
          SubEffect.deleteUpstreamSub sid ∈ (unsubscribeFromStreamer env u gid).2) ∧
        SubEffect.deleteDbSubscription buid ∈ (unsubscribeFromStreamer env u gid).2) ∧
      (env.removeRemaining buid gid ≠ 0 →
        (∀ sid, SubEffect.deleteUpstreamSub sid ∉ (unsubscribeFromStreamer env u gid).2) ∧
        (∀ b, SubEffect.deleteDbSubscription b ∉ (unsubscribeFromStreamer env u gid).2))) ∧
    (∀ (env : TwitchSubEnv) (u : String) (gid : Nat) (buid blogin : String)
       (record : TwitchSubRecord),
      env.userInfo = some (buid, blogin) →
      env.existing buid = some record →
      (subscribeToStreamer env u gid).2 = [SubEffect.addGuildToSubscription buid gid] ∧
      (subscribeToStreamer env u gid).1.1 = true) := by
  constructor
  · intro env u gid buid blogin record hu he
    refine ⟨?_, ?_, ?_⟩
    · by_cases hrem : env.removeRemaining buid gid = 0 <;>
        simp [unsubscribeFromStreamer, hu, he, hrem]
    · intro hrem
      refine ⟨?_, ?_, ?_⟩
      · intro sid hsid hne
        simp [unsubscribeFromStreamer, hu, he, hrem, hsid]
        left
        simp [pyTruthy, hne]
      · intro sid hsid hne
        simp [unsubscribeFromStreamer, hu, he, hrem, hsid]
        right
        simp [pyTruthy, hne]
      · simp [unsubscribeFromStreamer, hu, he, hrem]
    · intro hrem
      constructor <;> intro x <;> simp [unsubscribeFromStreamer, hu, he, hrem]
  · intro env u gid buid blogin record hu he
    simp [subscribeToStreamer, hu, he]

/-- Witness for C4 at a concrete environment: the last tracking guild
leaves, so both upstream subscriptions and the database record are
deleted; and subscribing with an existing record only adds the guild. -/
theorem subscription_reference_counting_witness :
    (SubEffect.removeGuildFromSubscription "b2" 9 ∈
      (unsubscribeFromStreamer
        { userInfo := some ("b2", "l2"),
          existing := fun _ => some { onlineSubscriptionId := some "on2",
                                      offlineSubscriptionId := some "off2" },
          removeRemaining := fun _ _ => 0, createOnlineId := none,
          createOfflineId := none } "s" 9).2 ∧
     SubEffect.deleteUpstreamSub "on2" ∈
      (unsubscribeFromStreamer
        { userInfo := some ("b2", "l2"),
          existing := fun _ => some { onlineSubscriptionId := some "on2",
                                      offlineSubscriptionId := some "off2" },
          removeRemaining := fun _ _ => 0, createOnlineId := none,
          createOfflineId := none } "s" 9).2 ∧
     SubEffect.deleteDbSubscription "b2" ∈
      (unsubscribeFromStreamer
        { userInfo := some ("b2", "l2"),
          existing := fun _ => some { onlineSubscriptionId := some "on2",
                                      offlineSubscriptionId := some "off2" },
          removeRemaining := fun _ _ => 0, createOnlineId := none,
          createOfflineId := none } "s" 9).2) ∧
    (subscribeToStreamer
        { userInfo := some ("b2", "l2"),
          existing := fun _ => some { onlineSubscriptionId := some "on2",
                                      offlineSubscriptionId := some "off2" },
          removeRemaining := fun _ _ => 0, createOnlineId := none,
          createOfflineId := none } "s" 9).2 =
      [SubEffect.addGuildToSubscription "b2" 9] :=
  by
  have h1 := subscription_reference_counting.1
    { userInfo := some ("b2", "l2"),
      existing := fun _ => some { onlineSubscriptionId := some "on2",
                                  offlineSubscriptionId := some "off2" },
      removeRemaining := fun _ _ => 0, createOnlineId := none,
      createOfflineId := none } "s" 9 "b2" "l2"
    { onlineSubscriptionId := some "on2", offlineSubscriptionId := some "off2" }
    rfl rfl
  have h2 := subscription_reference_counting.2
    { userInfo := some ("b2", "l2"),
      existing := fun _ => some { onlineSubscriptionId := some "on2",
                                  offlineSubscriptionId := some "off2" },
      removeRemaining := fun _ _ => 0, createOnlineId := none,
      createOfflineId := none } "s" 9 "b2" "l2"
    { onlineSubscriptionId := some "on2", offlineSubscriptionId := some "off2" }
    rfl rfl
  exact ⟨⟨h1.1, (h1.2.1 rfl).1 "on2" rfl (by decide),
    (h1.2.1 rfl).2.2⟩, h2.1⟩

/-- Case shape of one guild iteration: either it skips (state and effects
unchanged), or it posts and the post fails (state unchanged), or it posts
successfully and creates the announcement, activating the pair. In the two
posting cases no active announcement existed for the pair. -/
theorem kickProcessGuild_shape (env : KickAnnEnv) (streamer : String)
    (st : List (Nat × String)) (gid : Nat) :
    kickProcessGuild env streamer st gid = (st, []) ∨
    (∃ ch, (gid, streamer) ∉ st ∧ env.postSucceeds gid = false ∧
      kickProcessGuild env streamer st gid = (st, [KickAnnEffect.postMessage gid ch])) ∨
    (∃ ch, (gid, streamer) ∉ st ∧ env.postSucceeds gid = true ∧
      kickProcessGuild env streamer st gid =
        ((gid, streamer) :: st,
         [KickAnnEffect.postMessage gid ch,
          KickAnnEffect.createAnnouncement gid streamer])) := by
  unfold kickProcessGuild
  cases hset : env.settings gid with
  | none => exact Or.inl rfl
  | some s =>
    by_cases h1 : s.enabled
    · by_cases h2 : s.hasStreamerConfig
      · by_cases h3 : (gid, streamer) ∈ st
        · simp [h1, h2, h3]
        · cases hch : s.announcementChannelId with
          | none => simp [h1, h2, h3, hch]
          | some ch =>
            by_cases hz : ch = 0
            · simp [h1, h2, h3, hch, hz]
            · by_cases hp : env.postSucceeds gid
              · refine Or.inr (Or.inr ⟨ch, h3, hp, ?_⟩)
                simp [h1, h2, h3, hch, hz, hp]
              · refine Or.inr (Or.inl ⟨ch, h3, ?_, ?_⟩)
                · simpa using hp
                · simp [h1, h2, h3, hch, hz, hp]
      · simp [h1, h2]
    · simp [h1]

/-- The announcement state only grows across one iteration. -/
theorem kickProcessGuild_mono (env : KickAnnEnv) (streamer : String)
    (st : List (Nat × String)) (gid : Nat) (x : Nat × String) (hx : x ∈ st) :
    x ∈ (kickProcessGuild env streamer st gid).1 := by
  rcases kickProcessGuild_shape env streamer st gid with h | ⟨ch, _, _, h⟩ | ⟨ch, _, _, h⟩ <;>
    rw [h]
  · exact hx
  · exact hx
  · exact List.mem_cons_of_mem _ hx

/-- The announcement state only grows across the guild loop. -/
theorem kickRunGuilds_mono (env : KickAnnEnv) (streamer : String)
    (l : List Nat) (st : List (Nat × String)) (x : Nat × String) (hx : x ∈ st) :
    x ∈ (kickRunGuilds env streamer st l).1 := by
  induction l generalizing st with
  | nil => exact hx
  | cons g gs ih =>
    exact ih _ (kickProcessGuild_mono env streamer st g x hx)

/-- A guild whose pair is already active produces no post and no create
effect anywhere in the loop. -/
theorem kickRunGuilds_skips_active (env : KickAnnEnv) (streamer : String)
    (l : List Nat) (st : List (Nat × String)) (gid : Nat)
    (h : (gid, streamer) ∈ st) :
    (∀ s, KickAnnEffect.createAnnouncement gid s ∉ (kickRunGuilds env streamer st l).2) ∧
    (∀ ch, KickAnnEffect.postMessage gid ch ∉ (kickRunGuilds env streamer st l).2) := by
  induction l generalizing st with
  | nil => simp [kickRunGuilds]
  | cons g gs ih =>
    have hrec := ih (kickProcessGuild env streamer st g).1
      (kickProcessGuild_mono env streamer st g _ h)
    rcases kickProcessGuild_shape env streamer st g with hs | ⟨ch, hm, hp, hs⟩ | ⟨ch, hm, hp, hs⟩
    · constructor
      · intro s
        have hr := hrec.1 s
        rw [hs] at hr
        simpa [kickRunGuilds, hs] using hr
      · intro c
        have hr := hrec.2 c
        rw [hs] at hr
        simpa [kickRunGuilds, hs] using hr
    · have hgid : g ≠ gid := by
        intro hrfl; subst hrfl; exact hm h
      constructor
      · intro s
        have hr := hrec.1 s
        rw [hs] at hr
        simp only [kickRunGuilds, hs, List.cons_append, List.nil_append, List.mem_cons]
        rintro (hc | hc)
        · simp at hc
        · exact hr hc
      · intro c
        have hr := hrec.2 c
        rw [hs] at hr
        simp only [kickRunGuilds, hs, List.cons_append, List.nil_append, List.mem_cons]
        rintro (hc | hc)
        · simp at hc
          exact hgid hc.1.symm
        · exact hr hc
    · have hgid : g ≠ gid := by
        intro hrfl; subst hrfl; exact hm h
      constructor
      · intro s
        have hr := hrec.1 s
        rw [hs] at hr
        simp only [kickRunGuilds, hs, List.cons_append, List.nil_append, List.mem_cons]
        rintro (hc | hc | hc)
        · simp at hc
        · simp at hc
          exact hgid hc.1.symm
        · exact hr hc
      · intro c
        have hr := hrec.2 c
        rw [hs] at hr
        simp only [kickRunGuilds, hs, List.cons_append, List.nil_append, List.mem_cons]
        rintro (hc | hc | hc)
        · simp at hc
          exact hgid hc.1.symm
        · simp at hc
        · exact hr hc

/-- A create effect in the loop identifies its streamer and a successful
post for that guild. -/
theorem kickRunGuilds_create_needs_post (env : KickAnnEnv) (streamer : String)
    (l : List Nat) (st : List (Nat × String)) (gid : Nat) (s : String)
    (h : KickAnnEffect.createAnnouncement gid s ∈ (kickRunGuilds env streamer st l).2) :
    s = streamer ∧ env.postSucceeds gid = true := by
  induction l generalizing st with
  | nil => simp [kickRunGuilds] at h
  | cons g gs ih =>
    rcases kickProcessGuild_shape env streamer st g with hs | ⟨ch, hm, hp, hs⟩ | ⟨ch, hm, hp, hs⟩
    · rw [kickRunGuilds, hs] at h
      exact ih _ (by simpa using h)
    · rw [kickRunGuilds, hs] at h
      simp only [List.cons_append, List.nil_append, List.mem_cons] at h
      rcases h with h | h
      · simp at h
      · exact ih _ h
    · rw [kickRunGuilds, hs] at h
      simp only [List.cons_append, List.nil_append, List.mem_cons] at h
      rcases h with h | h | h
      · simp at h
      · simp at h
        obtain ⟨rfl, rfl⟩ := h
        exact ⟨rfl, hp⟩
      · exact ih _ h

/-- Each pair receives at most one create effect per run of the loop. -/
theorem kickRunGuilds_count_le_one (env : KickAnnEnv) (streamer : String)
    (l : List Nat) (st : List (Nat × String)) (gid : Nat) (s : String) :
    ((kickRunGuilds env streamer st l).2.count
      (KickAnnEffect.createAnnouncement gid s)) ≤ 1 := by
  induction l generalizing st with
  | nil => simp [kickRunGuilds]
  | cons g gs ih =>
    rcases kickProcessGuild_shape env streamer st g with hs | ⟨ch, hm, hp, hs⟩ | ⟨ch, hm, hp, hs⟩
    · rw [kickRunGuilds, hs]
      simpa using ih st
    · rw [kickRunGuilds, hs]
      simpa [List.count_cons] using ih st
    · rw [kickRunGuilds, hs]
      by_cases hx : gid = g ∧ s = streamer
      · obtain ⟨hg, hsx⟩ := hx
        subst hg
        subst hsx
        have hzero : List.count (KickAnnEffect.createAnnouncement gid s)
            (kickRunGuilds env s ((gid, s) :: st) gs).2 = 0 :=
          List.count_eq_zero.mpr
            ((kickRunGuilds_skips_active env s gs ((gid, s) :: st) gid
              (List.mem_cons_self _ _)).1 s)
        simp [List.count_append, List.count_cons, hzero]
      · have hcond : ¬ (g = gid ∧ streamer = s) := by
          intro hcc
          exact hx ⟨hcc.1.symm, hcc.2.symm⟩
        have hrest := ih ((g, streamer) :: st)
        simp only [List.count_append, List.count_cons, List.count_nil]
        simp [hcond]
        omega

/-- Count of a pair in the final state stays at most the larger of its
initial count and one. -/
theorem kickRunGuilds_state_count (env : KickAnnEnv) (streamer : String)
    (l : List Nat) (st : List (Nat × String)) (x : Nat × String) :
    ((kickRunGuilds env streamer st l).1.count x) ≤ max (st.count x) 1 := by
  induction l generalizing st with
  | nil => simp [kickRunGuilds]
  | cons g gs ih =>
    rcases kickProcessGuild_shape env streamer st g with hs | ⟨ch, hm, hp, hs⟩ | ⟨ch, hm, hp, hs⟩
    · rw [kickRunGuilds, hs]; exact ih st
    · rw [kickRunGuilds, hs]; exact ih st
    · rw [kickRunGuilds, hs]
      refine le_trans (ih ((g, streamer) :: st)) ?_
      by_cases hx : x = (g, streamer)
      · subst hx
        have : st.count (g, streamer) = 0 := List.count_eq_zero.mpr hm
        simp [List.count_cons, this]
      · simp [List.count_cons, hx]

/-- Unfolding of the handler at a present record with a nonzero count. -/
theorem kickHandleStreamOnline_some (env : KickAnnEnv) (record : KickSubRecord)
    (streamer : String) (st : List (Nat × String)) (eventId : String)
    (hc : record.guildCount ≠ 0) :
    kickHandleStreamOnline env (some record) streamer st eventId =
      ((kickRunGuilds env streamer st record.trackedGuildIds).1,
       (kickRunGuilds env streamer st record.trackedGuildIds).2 ++
         [KickAnnEffect.markProcessed eventId]) := by
  unfold kickHandleStreamOnline
  simp [hc]

/-- Unfolding of the handler at an absent or empty record. -/
theorem kickHandleStreamOnline_skip (env : KickAnnEnv)
    (subRecord : Option KickSubRecord) (streamer : String)
    (st : List (Nat × String)) (eventId : String)
    (hc : subRecord = none ∨ ∃ r, subRecord = some r ∧ r.guildCount = 0) :
    kickHandleStreamOnline env subRecord streamer st eventId = (st, []) := by
  rcases hc with rfl | ⟨r, rfl, hr⟩
  · rfl
  · unfold kickHandleStreamOnline
    simp [hr]

/-- Claim C8: processing a Kick stream-online event skips every guild that
already has an active announcement for the streamer (no post, no create),
calls create_announcement at most once per guild per event and only when
the Discord post succeeded, and preserves the at-most-one-active-
announcement-per-streamer-per-guild bound on the announcement table. -/
theorem stream_online_announcement_invariants (env : KickAnnEnv)
    (subRecord : Option KickSubRecord) (streamer : String)
    (st : List (Nat × String)) (eventId : String) :
    (∀ gid, (gid, streamer) ∈ st →
      (∀ s, KickAnnEffect.createAnnouncement gid s ∉
        (kickHandleStreamOnline env subRecord streamer st eventId).2) ∧
      (∀ ch, KickAnnEffect.postMessage gid ch ∉
        (kickHandleStreamOnline env subRecord streamer st eventId).2)) ∧
    (∀ gid s, ((kickHandleStreamOnline env subRecord streamer st eventId).2.count
      (KickAnnEffect.createAnnouncement gid s)) ≤ 1) ∧
    (∀ gid s, KickAnnEffect.createAnnouncement gid s ∈
      (kickHandleStreamOnline env subRecord streamer st eventId).2 →
      s = streamer ∧ env.postSucceeds gid = true) ∧
    (∀ x : Nat × String, st.count x ≤ 1 →
      ((kickHandleStreamOnline env subRecord streamer st eventId).1.count x) ≤ 1) := by
  rcases hsub : subRecord with _ | record
  · rw [kickHandleStreamOnline_skip env none streamer st eventId (Or.inl rfl)]
    simp
  · by_cases hc : record.guildCount = 0
    · rw [kickHandleStreamOnline_skip env (some record) streamer st eventId
        (Or.inr ⟨record, rfl, hc⟩)]
      simp
    · rw [kickHandleStreamOnline_some env record streamer st eventId hc]
      refine ⟨?_, ?_, ?_, ?_⟩
      · intro gid hmem
        have h := kickRunGuilds_skips_active env streamer record.trackedGuildIds st gid hmem
        constructor
        · intro s
          simp only [List.mem_append, List.mem_singleton]
          rintro (hx | hx)
          · exact h.1 s hx
          · simp at hx
        · intro ch
          simp only [List.mem_append, List.mem_singleton]
          rintro (hx | hx)
          · exact h.2 ch hx
          · simp at hx
      · intro gid s
        simp only [List.count_append]
        have := kickRunGuilds_count_le_one env streamer record.trackedGuildIds st gid s
        simpa using this
      · intro gid s hx
        simp only [List.mem_append, List.mem_singleton] at hx
        rcases hx with hx | hx
        · exact kickRunGuilds_create_needs_post env streamer record.trackedGuildIds st gid s hx
        · simp at hx
      · intro x hle
        have := kickRunGuilds_state_count env streamer record.trackedGuildIds st x
        exact le_trans this (by omega)

/-- Witness for C8 at a concrete run: guild 1 already has an active
announcement for the streamer and receives no create effect; guild 2 is
fresh and its create count stays at most one. -/
theorem stream_online_announcement_invariants_witness :
    (∀ s, KickAnnEffect.createAnnouncement 1 s ∉
      (kickHandleStreamOnline
        { settings := fun _ => some
            { enabled := true, hasStreamerConfig := true,
              announcementChannelId := some 99 },
          postSucceeds := fun _ => true }
        (some { guildCount := 2, trackedGuildIds := [1, 2] })
        "pond" [(1, "pond")] "ev1").2) ∧
    ((kickHandleStreamOnline
        { settings := fun _ => some
            { enabled := true, hasStreamerConfig := true,
              announcementChannelId := some 99 },
          postSucceeds := fun _ => true }
        (some { guildCount := 2, trackedGuildIds := [1, 2] })
        "pond" [(1, "pond")] "ev1").2.count
      (KickAnnEffect.createAnnouncement 2 "pond")) ≤ 1 :=
  ⟨fun s => ((stream_online_announcement_invariants
      { settings := fun _ => some
          { enabled := true, hasStreamerConfig := true,
            announcementChannelId := some 99 },
        postSucceeds := fun _ => true }
      (some { guildCount := 2, trackedGuildIds := [1, 2] })
      "pond" [(1, "pond")] "ev1").1 1 (by decide)).1 s,
   (stream_online_announcement_invariants
      { settings := fun _ => some
          { enabled := true, hasStreamerConfig := true,
            announcementChannelId := some 99 },
        postSucceeds := fun _ => true }
      (some { guildCount := 2, trackedGuildIds := [1, 2] })
      "pond" [(1, "pond")] "ev1").2.1 2 "pond"⟩

end Acosmibot
